import Mathlib

/-!
Verification of the session-store core of the Thorin session plugin
(src/lib/sessionStore.js): identifier signing and verification, storage-key
derivation, payload encryption/decryption, and the save/read/destroy
orchestration around a pluggable backend.  The host utilities
(thorin.util.hmac, sha2, compare, encrypt, decrypt, and JSON) are external
collaborators; they are modelled as an opaque service record together with
the correctness laws the specification assumes of them.
-/

set_option autoImplicit false

namespace ThorinSession

/-- Model of a JavaScript runtime value, covering the shapes the session
store manipulates: strings, booleans, flat objects (string-keyed records
with string fields are enough for the stored session data), null and
undefined.  JSValue.obj [] is the empty object. -/
inductive JSValue where
  | str : String → JSValue
  | bool : Bool → JSValue
  | obj : List (String × String) → JSValue
  | null : JSValue
  | undefined : JSValue
  deriving DecidableEq

/-- Whether a JavaScript value is a string, i.e. typeof v === string. -/
def JSValue.isStr : JSValue → Bool
  | .str _ => true
  | _ => false

/-- JavaScript truthiness of a modelled value: the empty string, false,
null and undefined are falsy; every object (even the empty one) and every
nonempty string is truthy. -/
def jsTruthy : JSValue → Bool
  | .str s => s != ""
  | .bool b => b
  | .obj _ => true
  | .null => false
  | .undefined => false

/-- Model of the JavaScript test s.charAt(0) === c for a one-character
string c: true exactly when s is nonempty and its first character is c
(charAt(0) of the empty string is the empty string, which differs from any
one-character string). -/
def charAt0Eq (s : String) (c : Char) : Bool :=
  match s.data with
  | [] => false
  | a :: _ => a == c

/-- Splitting a character list on a separator character, with the
semantics of JavaScript String.prototype.split for a nonempty
one-character separator: the empty string yields one empty segment, and n
separator occurrences yield n + 1 (possibly empty) segments. -/
def splitChars (sep : Char) : List Char → List (List Char)
  | [] => [[]]
  | c :: rest =>
    let r := splitChars sep rest
    if c = sep then [] :: r
    else (c :: r.headD []) :: r.tail

/-- Model of s.split(sep) for a one-character separator string sep. -/
def jsSplit (s : String) (sep : Char) : List String :=
  (splitChars sep s.data).map (fun l => String.mk l)

/-- The plugin options the session store closes over: secret is the
signing key (none models a missing or otherwise falsy opt.secret, which
disables signing); encrypt is the truthiness of opt.encrypt, enabling
storage-key hashing and payload encryption. -/
structure Options where
  secret : Option String
  encrypt : Bool
  deriving DecidableEq

/-- The host utility services the session store consumes (thorin.util and
JSON).  They are external to this repository and are kept opaque: hmac
models thorin.util.hmac(msg, secret, sha1), a hex digest; sha2 models
thorin.util.sha2; compare models the constant-time string comparison
thorin.util.compare; encrypt and decrypt model the symmetric cipher pair
thorin.util.encrypt(data, key) and thorin.util.decrypt(text, key), whose
failure value false is modelled as none; jsonParse models JSON.parse,
with none standing for a thrown parse error. -/
structure Util where
  hmac : String → String → String
  sha2 : JSValue → String
  compare : String → String → Bool
  encrypt : JSValue → JSValue → Option String
  decrypt : String → JSValue → Option String
  jsonParse : String → Option JSValue

/-- The correctness assumptions on the host services, which the
specification treats as assumed-correct opaque collaborators: the
constant-time comparison decides string equality; an HMAC-SHA1 hex digest
is nonempty and never contains the dot delimiter; and the symmetric
decrypt rejects a record obtained by prepending a foreign character to a
ciphertext — ciphertexts are hex-encoded, so a leading hash mark makes
the record malformed. -/
structure UtilLaws (u : Util) : Prop where
  compare_eq : ∀ a b : String, u.compare a b = (a == b)
  hmac_no_dot : ∀ m s : String, ('.') ∉ (u.hmac m s).data
  hmac_ne_empty : ∀ m s : String, u.hmac m s ≠ ""
  decrypt_rejects_marked : ∀ (d k : JSValue) (c : String),
    u.encrypt d k = some c → u.decrypt ("#" ++ c) k = none

/-- getSecureSid from src/lib/sessionStore.js: with encryption disabled
the storage key is the raw session id itself; with encryption enabled it
is the one-way sha2 hash of the raw id. -/
def getSecureSid (u : Util) (opt : Options) (sid : JSValue) : JSValue :=
  if !opt.encrypt then sid else .str (u.sha2 sid)

/-- encryptData from src/lib/sessionStore.js: a pass-through when
opt.encrypt is falsy; otherwise the data is encrypted keyed by the raw
sid, a failed encryption falls back to the plain data, and a successful
ciphertext is prefixed with the hash-mark sentinel ENC_SPLIT.  The guard
on line 169 (typeof opt different from object) is unreachable, since opt
is the plugin option object already dereferenced on the previous line,
and has no model here. -/
def encryptData (u : Util) (opt : Options) (sid : JSValue) (data : JSValue) : JSValue :=
  if !opt.encrypt then data
  else
    match u.encrypt data sid with
    | none => data
    | some c => .str ("#" ++ c)

/-- decryptData from src/lib/sessionStore.js: non-strings and strings not
starting with the hash-mark sentinel are returned unchanged; otherwise
the stored record — the whole string, sentinel included, exactly as on
line 181 of the source — is handed to the symmetric decrypt; a failed
decryption yields the empty object, a decrypted text that fails JSON
parsing is returned raw, and a parsed value is returned as is.  The opt
parameter mirrors the closure over the plugin options; the body never
consults it. -/
def decryptData (u : Util) (opt : Options) (sid : JSValue) (data : JSValue) : JSValue :=
  match data with
  | .str s =>
    if !(charAt0Eq s '#') then .str s
    else
      match u.decrypt s sid with
      | none => .obj []
      | some decrypted =>
        match u.jsonParse decrypted with
        | none => .str decrypted
        | some v => v
  | d => d

/-- Result of a JavaScript call that may throw: either a returned value
or an uncaught TypeError (here: calling .split on a value that has no
split method). -/
inductive JSResult where
  | ok : JSValue → JSResult
  | typeError : JSResult
  deriving DecidableEq

/-- signId from src/lib/sessionStore.js: a pass-through when no secret is
configured; false for non-string input; input already containing the dot
delimiter is returned unchanged; otherwise the HMAC-SHA1 of the sid under
the secret is appended after a dot. -/
def signId (u : Util) (opt : Options) (sid : JSValue) : JSValue :=
  match opt.secret with
  | none => sid
  | some secret =>
    match sid with
    | .str s =>
      if (jsSplit s '.').length ≠ 1 then .str s
      else .str (s ++ "." ++ u.hmac s secret)
    | _ => .bool false

/-- verifySignature from src/lib/sessionStore.js: a pass-through when no
secret is configured; for string input, the candidate is split on the dot
delimiter, a split of length other than two returns false, and otherwise
the HMAC of the first segment is recomputed and compared (in constant
time) against the second segment, returning the first segment on a match
and false otherwise.  A non-string input reaches sid.split unguarded and
throws a TypeError. -/
def verifySignature (u : Util) (opt : Options) (sid : JSValue) : JSResult :=
  match opt.secret with
  | none => .ok sid
  | some secret =>
    match sid with
    | .str s =>
      let tmp := jsSplit s '.'
      if tmp.length ≠ 2 then .ok (.bool false)
      else
        let sessId := tmp.getD 0 ""
        let sign := tmp.getD 1 ""
        if u.compare (u.hmac sessId secret) sign then .ok (.str sessId)
        else .ok (.bool false)
    | _ => .typeError

/-- Modelled from the spec: the session-payload container
(lib/sessionData.js, a file of this repository that is not under src/).
Only its read contract is used by the store: the id field, getData(), and
the save-needed query shouldSave(). -/
structure SessionData where
  id : JSValue
  data : JSValue
  shouldSave : Bool
  deriving DecidableEq

/-- The argument of saveSession: either a SessionData instance or some
other JavaScript value (which fails the instanceof check). -/
inductive SavePayload where
  | session : SessionData → SavePayload
  | other : JSValue → SavePayload
  deriving DecidableEq

/-- How a call to saveSession completes: err c models done(thorin.error(c));
noSave models done(null, false); save key record models the single backend
call this[store].save(key, record, cb) — the first two constructors carry
no backend interaction at all. -/
inductive SaveAction where
  | err : String → SaveAction
  | noSave : SaveAction
  | save : JSValue → JSValue → SaveAction
  deriving DecidableEq

/-- saveSession from src/lib/sessionStore.js.  hasStore is the truthiness
of the private backend field this[store].  The guards run in source
order: backend attached, payload an instance of SessionData, id a string
and data neither undefined nor null (typeof data === undefined together
with data == null amounts to data being neither undefined nor null), and
shouldSave(); only then is the backend invoked with the derived key and
the encrypted record. -/
def saveSession (u : Util) (opt : Options) (hasStore : Bool) (p : SavePayload) : SaveAction :=
  if !hasStore then .err "SESSION.NOT_READY"
  else
    match p with
    | .other _ => .err "SESSION.INVALID"
    | .session sObj =>
      if !sObj.id.isStr || sObj.data == .undefined || sObj.data == .null then .noSave
      else if !sObj.shouldSave then .noSave
      else .save (getSecureSid u opt sObj.id) (encryptData u opt sObj.id sObj.data)

/-- The id argument of destroySession and readSession: either a raw
value or a SessionData instance, whose id is then extracted. -/
inductive IdArg where
  | raw : JSValue → IdArg
  | session : SessionData → IdArg
  deriving DecidableEq

/-- The id actually used after the instanceof SessionData extraction. -/
def resolveId : IdArg → JSValue
  | .raw v => v
  | .session sd => sd.id

/-- How a call to destroySession completes: err c models
done(thorin.error(c)) with no backend interaction; destroy key models the
single backend call this[store].destroy(key, done), whose outcome is
passed through to the caller unchanged. -/
inductive DestroyAction where
  | err : String → DestroyAction
  | destroy : JSValue → DestroyAction
  deriving DecidableEq

/-- destroySession from src/lib/sessionStore.js. -/
def destroySession (u : Util) (opt : Options) (hasStore : Bool) (arg : IdArg) : DestroyAction :=
  if !hasStore then .err "SESSION.NOT_READY"
  else .destroy (getSecureSid u opt (resolveId arg))

/-- How a call to readSession starts: err c models done(thorin.error(c))
with no backend interaction; read key models the single backend call
this[store].read(key, cb). -/
inductive ReadAction where
  | err : String → ReadAction
  | read : JSValue → ReadAction
  deriving DecidableEq

/-- readSession from src/lib/sessionStore.js, up to the backend call. -/
def readSession (u : Util) (opt : Options) (hasStore : Bool) (arg : IdArg) : ReadAction :=
  if !hasStore then .err "SESSION.NOT_READY"
  else .read (getSecureSid u opt (resolveId arg))

/-- What the readSession callback hands to done on the success path:
either a freshly built SessionData wrapper around the decrypted data, or
the decrypted value itself. -/
inductive ReadResValue where
  | builtSession : JSValue → JSValue → ReadResValue
  | plain : JSValue → ReadResValue
  deriving DecidableEq

/-- How the readSession backend callback completes: a backend error is
propagated unchanged, otherwise done(null, res). -/
inductive ReadDone where
  | backendError : String → ReadDone
  | result : ReadResValue → ReadDone
  deriving DecidableEq

/-- The callback readSession installs on this[store].read: backend errors
are propagated; otherwise the record is decrypted keyed by the original
id, and the result is wrapped in a new SessionData when it is truthy and
the caller did not pass shouldBuildObject === false. -/
def readSessionCallback (u : Util) (opt : Options) (id : JSValue)
    (shouldBuildObject : JSValue) (e : Option String) (data : JSValue) : ReadDone :=
  match e with
  | some msg => .backendError msg
  | none =>
    let d := decryptData u opt id data
    if jsTruthy d && !(shouldBuildObject == .bool false) then .result (.builtSession id d)
    else .result (.plain d)

/-- The backend configuration object: the three recognized type tags,
plus any other tag, which the factory rejects. -/
inductive StoreConfig where
  | redis : StoreConfig
  | sql : StoreConfig
  | file : String → StoreConfig
  | other : String → StoreConfig
  deriving DecidableEq

/-- Modelled from the spec: the backend adapters (lib/store/redisStore.js,
sqlStore.js and fileStore.js, files of this repository that are not under
src/) are opaque objects exposing save, read and destroy; the model only
records which adapter kind the factory built, and for the file adapter
the path it was built with. -/
inductive Backend where
  | redis : Backend
  | sql : Backend
  | file : String → Backend
  deriving DecidableEq

/-- createStore from src/lib/sessionStore.js: dispatch on the type tag,
throwing a PLUGIN_SESSION configuration error on an unrecognized one. -/
def createStore : StoreConfig → Except String Backend
  | .redis => .ok .redis
  | .sql => .ok .sql
  | .file p => .ok (.file p)
  | .other _ => .error "PLUGIN_SESSION"

/-- The store property setter of ThorinSessionStore: when a backend is
already attached (this[store] is truthy) the assignment returns at once,
leaving the state unchanged; otherwise the factory builds the backend,
and a factory error propagates as a thrown error. -/
def setStore (current : Option Backend) (cfg : StoreConfig) : Except String (Option Backend) :=
  match current with
  | some b => .ok (some b)
  | none =>
    match createStore cfg with
    | .ok b => .ok (some b)
    | .error e => .error e

/-- The store property getter of ThorinSessionStore: it always returns
null, whatever the private state holds. -/
def getStoreProp (_ : Option Backend) : JSValue := .null

/-- A concrete instance of the host services used to evaluate the
development on closed inputs.  Its hmac is a run of the letter a whose
length depends on both inputs, its cipher always produces the ciphertext
EE and decrypts exactly the two marked records used as test vectors, and
its JSON parser recognizes the single text P. -/
def toyUtil : Util where
  hmac m s := String.mk (List.replicate (m.length + s.length + 1) 'a')
  sha2 _ := "HASH"
  compare a b := a == b
  encrypt _ _ := some "EE"
  decrypt r _ :=
    if r == "#D" then some "RAW"
    else if r == "#P" then some "P"
    else none
  jsonParse s := if s == "P" then some (.obj []) else none

/-- The byte list of a concatenation is the concatenation of the byte
lists. -/
theorem data_append (a b : String) : (a ++ b).data = a.data ++ b.data := rfl

/-- Rebuilding a string from its character list gives the string back. -/
theorem mk_data (s : String) : String.mk s.data = s := rfl

/-- A split never produces an empty list of segments. -/
theorem splitChars_ne_nil (sep : Char) (l : List Char) : splitChars sep l ≠ [] := by
  cases l with
  | nil => simp [splitChars]
  | cons c rest =>
    simp only [splitChars]
    by_cases hc : c = sep <;> simp [hc]

/-- Splitting a list free of the separator yields that list as the
single segment. -/
theorem splitChars_no_sep (sep : Char) (l : List Char) (h : sep ∉ l) :
    splitChars sep l = [l] := by
  induction l with
  | nil => rfl
  | cons c rest ih =>
    have hc : c ≠ sep := fun he => h (he ▸ List.mem_cons_self c rest)
    have hr : sep ∉ rest := fun hm => h (List.mem_cons_of_mem c hm)
    simp [splitChars, hc, ih hr]

/-- Splitting around the first separator occurrence: a separator-free
piece before the separator becomes the first segment, and the rest is
split on its own. -/
theorem splitChars_mid (sep : Char) (a b : List Char) (ha : sep ∉ a) :
    splitChars sep (a ++ sep :: b) = a :: splitChars sep b := by
  induction a with
  | nil => simp [splitChars]
  | cons c a ih =>
    have hc : c ≠ sep := fun he => ha (he ▸ List.mem_cons_self c a)
    have hr : sep ∉ a := fun hm => ha (List.mem_cons_of_mem c hm)
    simp [splitChars, hc, ih hr]

/-- jsSplit of a separator-free string is the one-element list holding
the string itself. -/
theorem jsSplit_no_sep (s : String) (sep : Char) (h : sep ∉ s.data) :
    jsSplit s sep = [s] := by
  simp [jsSplit, splitChars_no_sep sep s.data h, mk_data]

/-- jsSplit of a string of the shape a ++ "." ++ b, with both a and b
free of dots, is the two-element list holding a and b. -/
theorem jsSplit_around_dot (a b : String) (ha : ('.') ∉ a.data) (hb : ('.') ∉ b.data) :
    jsSplit (a ++ "." ++ b) '.' = [a, b] := by
  have hdata : (a ++ "." ++ b).data = a.data ++ ('.') :: b.data := by
    simp [data_append, List.append_assoc]
  simp [jsSplit, hdata, splitChars_mid ('.') a.data b.data ha,
    splitChars_no_sep ('.') b.data hb, mk_data]

/-- The toy host services satisfy all the assumed laws: the comparison is
equality, the hmac digest is a nonempty run of the letter a (so it is dot
free), and the cipher never decrypts a record that prepends the hash mark
to its only ciphertext EE. -/
theorem toyUtilLaws : UtilLaws toyUtil := by
  refine ⟨fun a b => rfl, ?_, ?_, ?_⟩
  · intro m s hm
    have := List.eq_of_mem_replicate hm
    simp at this
  · intro m s h
    have := congrArg String.data h
    simp [toyUtil] at this
  · intro d k c hc
    have hce : c = "EE" := by
      simpa [toyUtil] using hc.symm
    subst hce
    rfl

/-- Helper for claim C1: with encryption enabled and a successful
encryption, the stored record is the hash mark followed by the
ciphertext, and decryptData hands that whole record — the mark never
stripped — to the symmetric decrypt, which rejects it, so the round trip
lands in the fail-safe branch and yields the empty object, whatever the
original data was. -/
theorem encryptData_decryptData_no_roundtrip (u : Util) (hu : UtilLaws u)
    (opt : Options) (henc : opt.encrypt = true) (sid d : JSValue) (c : String)
    (hc : u.encrypt d sid = some c) :
    decryptData u opt sid (encryptData u opt sid d) = .obj [] := by
  have he : encryptData u opt sid d = .str ("#" ++ c) := by
    simp [encryptData, henc, hc]
  have hd : ("#" ++ c).data = '#' :: c.data := rfl
  have hmark : charAt0Eq ("#" ++ c) '#' = true := by
    simp [charAt0Eq, hd]
  rw [he]
  simp [decryptData, hmark, hu.decrypt_rejects_marked d sid c hc]

/-- C1: the cipher round trip claimed by the spec fails on the code.
At the concrete failing input (raw id a, data a one-field object, with
encryption enabled and the cipher succeeding), encryptData stores the
sentinel-marked ciphertext, but decryptData passes the record to the
symmetric decrypt without stripping the sentinel (line 181 of the
source), the decryption is rejected, and the round trip returns the
fail-safe empty object instead of the original data. -/
theorem C1_roundtrip_fails_concrete :
    encryptData toyUtil ⟨none, true⟩ (.str "a") (.obj [("k", "v")]) = .str "#EE" ∧
    decryptData toyUtil ⟨none, true⟩ (.str "a")
        (encryptData toyUtil ⟨none, true⟩ (.str "a") (.obj [("k", "v")])) = .obj [] ∧
    JSValue.obj [] ≠ JSValue.obj [("k", "v")] := by
  refine ⟨by decide, by decide, by decide⟩

/-- C3: with a signing secret configured, for every raw identifier string
containing no dot delimiter, verifySignature recovers the identifier from
the output of signId: signId appends the dot plus the HMAC of the id
under the secret, and verifySignature splits on the dot, recomputes the
HMAC, compares, and returns the first segment. -/
theorem C3_sign_verify_roundtrip (u : Util) (hu : UtilLaws u) (opt : Options)
    (sec : String) (hsec : opt.secret = some sec) (x : String)
    (hx : ('.') ∉ x.data) :
    verifySignature u opt (signId u opt (.str x)) = .ok (.str x) := by
  have h1 : jsSplit x '.' = [x] := jsSplit_no_sep x '.' hx
  have hsign : signId u opt (.str x) = .str (x ++ "." ++ u.hmac x sec) := by
    simp [signId, hsec, h1]
  rw [hsign]
  have h2 : jsSplit (x ++ "." ++ u.hmac x sec) '.' = [x, u.hmac x sec] :=
    jsSplit_around_dot x (u.hmac x sec) hx (hu.hmac_no_dot x sec)
  simp [verifySignature, hsec, h2, hu.compare_eq]

/-- Witness for C3 at a concrete input. -/
theorem C3_witness :
    verifySignature toyUtil ⟨some "s", true⟩
      (signId toyUtil ⟨some "s", true⟩ (.str "id")) = .ok (.str "id") :=
  C3_sign_verify_roundtrip toyUtil toyUtilLaws ⟨some "s", true⟩ "s" rfl "id" (by decide)

/-- C4: with no signing secret configured, both signId and
verifySignature are identity pass-throughs on every value — no type
check and no delimiter inspection is reached, and in particular nothing
throws. -/
theorem C4_disabled_signing_passthrough (u : Util) (opt : Options)
    (hsec : opt.secret = none) (v : JSValue) :
    signId u opt v = v ∧ verifySignature u opt v = .ok v := by
  simp [signId, verifySignature, hsec]

/-- Witness for C4 at a concrete non-string input. -/
theorem C4_witness :
    signId toyUtil ⟨none, false⟩ (.obj [("a", "b")]) = .obj [("a", "b")] ∧
    verifySignature toyUtil ⟨none, false⟩ (.obj [("a", "b")]) = .ok (.obj [("a", "b")]) :=
  C4_disabled_signing_passthrough toyUtil ⟨none, false⟩ rfl (.obj [("a", "b")])

/-- C8: the backend reference is set-once.  A first assignment with a
configuration the factory accepts attaches exactly the backend the
factory built; any assignment while a backend is attached is silently
ignored and leaves it unchanged; and the store property getter returns
null whatever the private state holds. -/
theorem C8_store_set_once :
    (∀ (cfg : StoreConfig) (b : Backend), createStore cfg = .ok b →
        setStore none cfg = .ok (some b)) ∧
    (∀ (b : Backend) (cfg : StoreConfig), setStore (some b) cfg = .ok (some b)) ∧
    (∀ st : Option Backend, getStoreProp st = .null) := by
  refine ⟨fun cfg b h => ?_, fun b cfg => rfl, fun st => rfl⟩
  simp [setStore, h]

/-- Witness for C8 at concrete inputs. -/
theorem C8_witness :
    setStore none .redis = .ok (some .redis) ∧
    setStore (some .redis) (.other "x") = .ok (some .redis) ∧
    getStoreProp (some .redis) = .null :=
  ⟨C8_store_set_once.1 .redis .redis rfl, C8_store_set_once.2.1 .redis (.other "x"),
    C8_store_set_once.2.2 (some .redis)⟩

/-- C9: with a signing secret configured, verifySignature reaches the
unguarded sid.split on every non-string input and throws a TypeError,
whereas signId checks the type first and returns false for the same
inputs. -/
theorem C9_nonstring_throws (u : Util) (opt : Options) (sec : String)
    (hsec : opt.secret = some sec) :
    (∀ v : JSValue, v.isStr = false → verifySignature u opt v = .typeError) ∧
    (∀ v : JSValue, v.isStr = false → signId u opt v = .bool false) := by
  constructor <;> intro v hv <;>
    cases v <;> simp_all [JSValue.isStr, verifySignature, signId, hsec]

/-- Witness for C9 at concrete non-string inputs. -/
theorem C9_witness :
    verifySignature toyUtil ⟨some "s", false⟩ .null = .typeError ∧
    signId toyUtil ⟨some "s", false⟩ (.bool true) = .bool false :=
  ⟨(C9_nonstring_throws toyUtil ⟨some "s", false⟩ "s" rfl).1 .null rfl,
    (C9_nonstring_throws toyUtil ⟨some "s", false⟩ "s" rfl).2 (.bool true) rfl⟩

/-- Counterexample for C2: verifySignature does not check segment
non-emptiness, only that the split has length two.  The candidate .aa
(under the toy services, whose laws hold and whose HMAC of the empty
string under secret s is aa) splits into an empty first segment and the
segment aa, which is exactly the HMAC of the empty string — so the
comparison succeeds and verifySignature returns the empty string through
its success path, not the boolean false the claim requires. -/
theorem C2_counterexample :
    UtilLaws toyUtil ∧
    jsSplit ".aa" '.' = ["", "aa"] ∧
    toyUtil.hmac "" "s" = "aa" ∧
    verifySignature toyUtil ⟨some "s", false⟩ (.str ".aa") = .ok (.str "") ∧
    JSResult.ok (.str "") ≠ JSResult.ok (.bool false) :=
  ⟨toyUtilLaws, by decide, by decide, by decide, by decide⟩

/-- C2 (amended): with a secret configured, verifySignature returns false
whenever the dot split does not yield exactly two segments, and whenever
the second segment differs from the HMAC of the first — in particular an
empty signature segment is always rejected, since HMAC digests are
nonempty; but emptiness of the first segment is not checked: the
candidate made of a dot followed by the HMAC of the empty string passes
verification and returns the empty string, a falsy value that is not the
boolean false. -/
theorem C2_amended_verify_failure_modes (u : Util) (hu : UtilLaws u) (opt : Options)
    (sec : String) (hsec : opt.secret = some sec) :
    (∀ s : String, (jsSplit s '.').length ≠ 2 →
        verifySignature u opt (.str s) = .ok (.bool false)) ∧
    (∀ s a b : String, jsSplit s '.' = [a, b] → b ≠ u.hmac a sec →
        verifySignature u opt (.str s) = .ok (.bool false)) ∧
    (∀ s a : String, jsSplit s '.' = [a, ""] →
        verifySignature u opt (.str s) = .ok (.bool false)) ∧
    (verifySignature u opt (.str ("." ++ u.hmac "" sec)) = .ok (.str "")) := by
  have h2 : ∀ s a b : String, jsSplit s '.' = [a, b] → b ≠ u.hmac a sec →
      verifySignature u opt (.str s) = .ok (.bool false) := by
    intro s a b hab hb
    simp [verifySignature, hsec, hab, hu.compare_eq, Ne.symm hb]
  refine ⟨fun s h => by simp [verifySignature, hsec, h], h2,
    fun s a hab => h2 s a "" hab (fun he => hu.hmac_ne_empty a sec he.symm), ?_⟩
  have hsplit : jsSplit ("." ++ u.hmac "" sec) '.' = ["", u.hmac "" sec] :=
    jsSplit_around_dot "" (u.hmac "" sec) (by simp) (hu.hmac_no_dot "" sec)
  simp [verifySignature, hsec, hsplit, hu.compare_eq]

/-- Witness for the amended C2, one concrete input per failure mode plus
the empty-first-segment acceptance. -/
theorem C2_amended_witness :
    verifySignature toyUtil ⟨some "s", false⟩ (.str "abc") = .ok (.bool false) ∧
    verifySignature toyUtil ⟨some "s", false⟩ (.str "a.zz") = .ok (.bool false) ∧
    verifySignature toyUtil ⟨some "s", false⟩ (.str "a.") = .ok (.bool false) ∧
    verifySignature toyUtil ⟨some "s", false⟩
      (.str ("." ++ toyUtil.hmac "" "s")) = .ok (.str "") :=
  ⟨(C2_amended_verify_failure_modes toyUtil toyUtilLaws ⟨some "s", false⟩ "s" rfl).1
      "abc" (by decide),
    (C2_amended_verify_failure_modes toyUtil toyUtilLaws ⟨some "s", false⟩ "s" rfl).2.1
      "a.zz" "a" "zz" (by decide) (by decide),
    (C2_amended_verify_failure_modes toyUtil toyUtilLaws ⟨some "s", false⟩ "s" rfl).2.2.1
      "a." "a" (by decide),
    (C2_amended_verify_failure_modes toyUtil toyUtilLaws ⟨some "s", false⟩ "s" rfl).2.2.2⟩

/-- C5: decryptData is total (the model returns a value on every input —
every operation it performs is either guarded or has a caught failure)
and fail-safe: a non-string record is returned unchanged; a string
record not starting with the hash-mark sentinel is returned unchanged; a
marked record whose decryption fails yields the empty object; and a
marked record that decrypts to a text JSON cannot parse yields that raw
decrypted text. -/
theorem C5_decrypt_fail_safe (u : Util) (opt : Options) (sid : JSValue) :
    (∀ v : JSValue, v.isStr = false → decryptData u opt sid v = v) ∧
    (∀ s : String, charAt0Eq s '#' = false → decryptData u opt sid (.str s) = .str s) ∧
    (∀ s : String, charAt0Eq s '#' = true → u.decrypt s sid = none →
        decryptData u opt sid (.str s) = .obj []) ∧
    (∀ s d : String, charAt0Eq s '#' = true → u.decrypt s sid = some d →
        u.jsonParse d = none → decryptData u opt sid (.str s) = .str d) := by
  refine ⟨fun v hv => ?_, fun s hs => by simp [decryptData, hs],
    fun s h1 h2 => by simp [decryptData, h1, h2],
    fun s d h1 h2 h3 => by simp [decryptData, h1, h2, h3]⟩
  cases v <;> simp_all [JSValue.isStr, decryptData]

/-- Witness for C5, one concrete input per branch. -/
theorem C5_witness :
    decryptData toyUtil ⟨none, false⟩ (.str "k") .null = .null ∧
    decryptData toyUtil ⟨none, false⟩ (.str "k") (.str "zz") = .str "zz" ∧
    decryptData toyUtil ⟨none, false⟩ (.str "k") (.str "#zz") = .obj [] ∧
    decryptData toyUtil ⟨none, false⟩ (.str "k") (.str "#D") = .str "RAW" :=
  ⟨(C5_decrypt_fail_safe toyUtil ⟨none, false⟩ (.str "k")).1 .null rfl,
    (C5_decrypt_fail_safe toyUtil ⟨none, false⟩ (.str "k")).2.1 "zz" (by decide),
    (C5_decrypt_fail_safe toyUtil ⟨none, false⟩ (.str "k")).2.2.1 "#zz"
      (by decide) (by decide),
    (C5_decrypt_fail_safe toyUtil ⟨none, false⟩ (.str "k")).2.2.2 "#D" "RAW"
      (by decide) (by decide) (by decide)⟩

/-- C6: the storage-key derivation is deterministic, is the identity when
encryption-at-rest is disabled, is the one-way sha2 hash when it is
enabled, and is applied uniformly: for one and the same raw id,
saveSession, readSession and destroySession all hand the backend the key
getSecureSid of that id, so identical raw ids resolve to the same backend
record across the three operations. -/
theorem C6_storage_key_uniform (u : Util) :
    (∀ (opt : Options) (v w : JSValue), v = w →
        getSecureSid u opt v = getSecureSid u opt w) ∧
    (∀ (opt : Options) (v : JSValue), opt.encrypt = false → getSecureSid u opt v = v) ∧
    (∀ (opt : Options) (v : JSValue), opt.encrypt = true →
        getSecureSid u opt v = .str (u.sha2 v)) ∧
    (∀ (opt : Options) (x : String) (d : JSValue), d ≠ .undefined → d ≠ .null →
        saveSession u opt true (.session ⟨.str x, d, true⟩) =
          .save (getSecureSid u opt (.str x)) (encryptData u opt (.str x) d)) ∧
    (∀ (opt : Options) (x : String),
        readSession u opt true (.raw (.str x)) = .read (getSecureSid u opt (.str x))) ∧
    (∀ (opt : Options) (x : String),
        destroySession u opt true (.raw (.str x)) =
          .destroy (getSecureSid u opt (.str x))) := by
  refine ⟨fun opt v w h => by rw [h], fun opt v h => by simp [getSecureSid, h],
    fun opt v h => by simp [getSecureSid, h], fun opt x d h1 h2 => ?_,
    fun opt x => by simp [readSession, resolveId], fun opt x => by simp [destroySession, resolveId]⟩
  simp [saveSession, JSValue.isStr, h1, h2]

/-- Witness for C6 at one raw id under both configurations. -/
theorem C6_witness :
    getSecureSid toyUtil ⟨none, true⟩ (.str "x") = getSecureSid toyUtil ⟨none, true⟩ (.str "x") ∧
    getSecureSid toyUtil ⟨none, false⟩ (.str "x") = .str "x" ∧
    getSecureSid toyUtil ⟨none, true⟩ (.str "x") = .str (toyUtil.sha2 (.str "x")) ∧
    saveSession toyUtil ⟨none, true⟩ true (.session ⟨.str "x", .obj [], true⟩) =
      .save (getSecureSid toyUtil ⟨none, true⟩ (.str "x"))
        (encryptData toyUtil ⟨none, true⟩ (.str "x") (.obj [])) ∧
    readSession toyUtil ⟨none, true⟩ true (.raw (.str "x")) =
      .read (getSecureSid toyUtil ⟨none, true⟩ (.str "x")) ∧
    destroySession toyUtil ⟨none, true⟩ true (.raw (.str "x")) =
      .destroy (getSecureSid toyUtil ⟨none, true⟩ (.str "x")) :=
  ⟨(C6_storage_key_uniform toyUtil).1 ⟨none, true⟩ (.str "x") (.str "x") rfl,
    (C6_storage_key_uniform toyUtil).2.1 ⟨none, false⟩ (.str "x") rfl,
    (C6_storage_key_uniform toyUtil).2.2.1 ⟨none, true⟩ (.str "x") rfl,
    (C6_storage_key_uniform toyUtil).2.2.2.1 ⟨none, true⟩ "x" (.obj [])
      (by decide) (by decide),
    (C6_storage_key_uniform toyUtil).2.2.2.2.1 ⟨none, true⟩ "x",
    (C6_storage_key_uniform toyUtil).2.2.2.2.2 ⟨none, true⟩ "x"⟩

/-- C7: local validation failures complete without any backend
interaction — the err and noSave completions carry no backend call by
construction, the save, read and destroy completions being the only ones
that do.  With no backend attached, each of the three operations
completes with the SESSION.NOT_READY error; with a backend attached, a
payload that is not a SessionData completes saveSession with the
SESSION.INVALID error; and a SessionData payload whose id is not a
string, whose data is undefined or null, or whose save-needed predicate
is false completes saveSession with done(null, false). -/
theorem C7_local_validation (u : Util) (opt : Options) :
    (∀ p : SavePayload, saveSession u opt false p = .err "SESSION.NOT_READY") ∧
    (∀ a : IdArg, readSession u opt false a = .err "SESSION.NOT_READY") ∧
    (∀ a : IdArg, destroySession u opt false a = .err "SESSION.NOT_READY") ∧
    (∀ w : JSValue, saveSession u opt true (.other w) = .err "SESSION.INVALID") ∧
    (∀ sd : SessionData, sd.id.isStr = false →
        saveSession u opt true (.session sd) = .noSave) ∧
    (∀ sd : SessionData, sd.data = .undefined ∨ sd.data = .null →
        saveSession u opt true (.session sd) = .noSave) ∧
    (∀ sd : SessionData, sd.shouldSave = false →
        saveSession u opt true (.session sd) = .noSave) := by
  refine ⟨fun p => rfl, fun a => rfl, fun a => rfl, fun w => rfl,
    fun sd h => by simp [saveSession, h], fun sd h => ?_, fun sd h => ?_⟩
  · rcases h with h | h <;> simp [saveSession, h]
  · by_cases hc : (!sd.id.isStr || sd.data == .undefined || sd.data == .null) = true
    · simp [saveSession, hc]
    · simp [saveSession, hc, h]

/-- Witness for C7, one concrete input per validation failure. -/
theorem C7_witness :
    saveSession toyUtil ⟨none, false⟩ false (.other .null) = .err "SESSION.NOT_READY" ∧
    readSession toyUtil ⟨none, false⟩ false (.raw .null) = .err "SESSION.NOT_READY" ∧
    destroySession toyUtil ⟨none, false⟩ false (.raw .null) = .err "SESSION.NOT_READY" ∧
    saveSession toyUtil ⟨none, false⟩ true (.other (.str "x")) = .err "SESSION.INVALID" ∧
    saveSession toyUtil ⟨none, false⟩ true (.session ⟨.null, .obj [], true⟩) = .noSave ∧
    saveSession toyUtil ⟨none, false⟩ true (.session ⟨.str "x", .null, true⟩) = .noSave ∧
    saveSession toyUtil ⟨none, false⟩ true (.session ⟨.str "x", .obj [], false⟩) = .noSave :=
  ⟨(C7_local_validation toyUtil ⟨none, false⟩).1 (.other .null),
    (C7_local_validation toyUtil ⟨none, false⟩).2.1 (.raw .null),
    (C7_local_validation toyUtil ⟨none, false⟩).2.2.1 (.raw .null),
    (C7_local_validation toyUtil ⟨none, false⟩).2.2.2.1 (.str "x"),
    (C7_local_validation toyUtil ⟨none, false⟩).2.2.2.2.1 ⟨.null, .obj [], true⟩ rfl,
    (C7_local_validation toyUtil ⟨none, false⟩).2.2.2.2.2.1 ⟨.str "x", .null, true⟩
      (Or.inr rfl),
    (C7_local_validation toyUtil ⟨none, false⟩).2.2.2.2.2.2 ⟨.str "x", .obj [], false⟩ rfl⟩

/-- C10: decryptData never consults the encryption option — its value is
the same under any two option records — and the readSession callback
still attempts decryption keyed by the identifier when opt.encrypt is
disabled: a stored record starting with the hash-mark sentinel that the
cipher can decrypt and JSON can parse comes back decrypted even with
encryption turned off. -/
theorem C10_decrypt_ignores_encrypt_flag (u : Util) :
    (∀ (opt opt2 : Options) (sid data : JSValue),
        decryptData u opt sid data = decryptData u opt2 sid data) ∧
    (∀ opt : Options, opt.encrypt = false →
      ∀ (id : JSValue) (s p : String) (v : JSValue),
        charAt0Eq s '#' = true → u.decrypt s id = some p → u.jsonParse p = some v →
        readSessionCallback u opt id (.bool false) none (.str s) =
          .result (.plain v)) := by
  refine ⟨fun opt opt2 sid data => rfl, fun opt henc id s p v h1 h2 h3 => ?_⟩
  simp [readSessionCallback, decryptData, h1, h2, h3]

/-- Witness for C10: the same marked record decrypts identically under
encryption on and off, and a read with encryption off still decrypts and
parses a marked record. -/
theorem C10_witness :
    decryptData toyUtil ⟨none, true⟩ (.str "k") (.str "#D") =
      decryptData toyUtil ⟨some "s", false⟩ (.str "k") (.str "#D") ∧
    readSessionCallback toyUtil ⟨none, false⟩ (.str "k") (.bool false) none (.str "#P") =
      .result (.plain (.obj [])) :=
  ⟨(C10_decrypt_ignores_encrypt_flag toyUtil).1 ⟨none, true⟩ ⟨some "s", false⟩
      (.str "k") (.str "#D"),
    (C10_decrypt_ignores_encrypt_flag toyUtil).2 ⟨none, false⟩ rfl (.str "k") "#P" "P"
      (.obj []) (by decide) (by decide) (by decide)⟩

end ThorinSession
